import Mathlib

/-!
Shallow embedding of the Koyeb sandbox filesystem client
(src/koyeb/sandbox/filesystem.py) together with the parts of its
collaborator contract that the file relies on.

Modelling conventions:
* Remote collaborators (the HTTP client, the command executor, the local
  disk and the host text codecs) are a value of type SandboxEnv made of
  pure response functions; a remote call is recorded in a trace.
* Each Python method becomes a Lean function returning
  Except PyErr result paired with the list of collaborator calls made,
  in order.
* Python exception classes become the constructors of PyErr:
  SandboxFileNotFoundError, SandboxFileExistsError, SandboxFilesystemError,
  ValueError (the usage error of the file handle), UnicodeDecodeError,
  UnicodeEncodeError and binascii errors.
-/

/-- Kinds of Python exception the subsystem can raise.  fileNotFound is
SandboxFileNotFoundError, fileExists is SandboxFileExistsError,
filesystemError is the base SandboxFilesystemError, valueError is the
builtin ValueError used by the file handles for usage errors,
unicodeDecodeError and unicodeEncodeError model the codec failures of
bytes.decode and str.encode, binasciiError models base64.b64decode
failure, attributeError models the builtin AttributeError raised by an
attribute access on an object without that attribute (here: reading
content off an un-awaited coroutine object). -/
inductive PyErr where
  | fileNotFound (msg : String)
  | fileExists (msg : String)
  | filesystemError (msg : String)
  | valueError (msg : String)
  | unicodeDecodeError (msg : String)
  | unicodeEncodeError (msg : String)
  | binasciiError (msg : String)
  | attributeError (msg : String)
deriving DecidableEq

/-- A response structure of the remote API client: a dict that may carry
an error string, a content payload, and a directory entry list. -/
structure ClientResponse where
  error : Option String
  content : Option String
  entries : Option (List String)
deriving DecidableEq

/-- Outcome of one remote API client call: either a response dict, or the
client itself raised an exception whose str() is the given message. -/
inductive ClientOutcome where
  | ok (r : ClientResponse)
  | exc (msg : String)
deriving DecidableEq

/-- Result of the command executor: success flag, stdout, stderr. -/
structure CommandResult where
  success : Bool
  stdout : String
  stderr : String
deriving DecidableEq

/-- FileInfo dataclass from filesystem.py. -/
structure FileInfo where
  content : String
  encoding : String
deriving DecidableEq

/-- One collaborator call issued by the facade, recorded for the trace. -/
inductive RemoteCall where
  | clientWrite (path content : String)
  | clientRead (path : String)
  | clientMakeDir (path : String)
  | clientListDir (path : String)
  | clientDeleteFile (path : String)
  | clientDeleteDir (path : String)
  | execCmd (cmd : String)
deriving DecidableEq

/-- The content argument of write_file: Union of str and bytes.  Bytes
are a list of byte values. -/
inductive PyContent where
  | pyStr (s : String)
  | pyBytes (b : List Nat)
deriving DecidableEq

deriving instance DecidableEq for Except

/-- One entry of the write_files list: a dict with keys path, content and
optional encoding. -/
structure FileEntry where
  path : String
  content : String
  encoding : Option String
deriving DecidableEq

/-- The external collaborators as pure response functions: the remote API
client, the command executor, the local disk (path to bytes), and the
host text and base64 codecs (bytes.decode, str.encode, base64 functions,
given host capabilities per the spec).  A codec returning none models the
corresponding Python exception. -/
structure SandboxEnv where
  clientWrite : String → String → ClientOutcome
  clientRead : String → ClientOutcome
  clientMakeDir : String → ClientOutcome
  clientListDir : String → ClientOutcome
  clientDeleteFile : String → ClientOutcome
  clientDeleteDir : String → ClientOutcome
  exec : String → CommandResult
  localFiles : String → Option (List Nat)
  decode : String → List Nat → Option String
  encode : String → String → Option (List Nat)
  b64encode : List Nat → String
  b64decode : String → Option (List Nat)

/-- Truthiness of response.get with the error key: Python treats a
missing key and an empty string as falsy; a present non-empty error
string is truthy and is the classified message. -/
def errVal : Option String → Option String
  | none => none
  | some s => if s = "" then none else some s

/-- Containment of a character list as a contiguous run of another. -/
def listContainsAux (needle : List Char) : List Char → Bool
  | [] => needle.isPrefixOf []
  | c :: t => needle.isPrefixOf (c :: t) || listContainsAux needle t

/-- Substring containment on strings, used to model the Python in
operator on str. -/
def strContains (hay needle : String) : Bool :=
  listContainsAux needle.data hay.data

/-- Modelled from the spec: the marker table of the error classifier in
koyeb.sandbox.utils, which is not under src/.  The spec (section 4.1 and
6) fixes a small closed set of sentinel substrings: file-not-found,
file-already-exists, directory-not-empty, matched case-insensitively.
The symbolic codes are the ones the call sites in filesystem.py pass. -/
def marker_for (code : String) : String :=
  if code = "NO_SUCH_FILE" then "no such file"
  else if code = "FILE_EXISTS" then "file exists"
  else if code = "DIR_NOT_EMPTY" then "directory not empty"
  else code

/-- Lowercasing of a string character by character, modelling str.lower
for the ascii letters the markers use. -/
def strToLower (s : String) : String :=
  String.mk (s.data.map Char.toLower)

/-- Modelled from the spec: check_error_message from koyeb.sandbox.utils
(not under src/).  Per spec section 4.1 it returns whether the marker of
the given code is present in the raw error text using case-insensitive
substring containment. -/
def check_error_message (error_msg code : String) : Bool :=
  strContains (strToLower error_msg) (marker_for code)

/-- The single-quote character, written by code point to keep source
plain. -/
def squote : Char := Char.ofNat 39

/-- The backslash character, written by code point. -/
def bslash : Char := Char.ofNat 92

/-- Escape of a single character for a POSIX shell single-quoted string:
a quote is closed, backslash-escaped, reopened; every other character is
literal inside single quotes. -/
def escChar (c : Char) : List Char :=
  if c = squote then [squote, bslash, squote, squote] else [c]

/-- Concatenated escapes of a character list. -/
def escBody : List Char → List Char
  | [] => []
  | c :: cs => escChar c ++ escBody cs

/-- Modelled from the spec: escape_shell_arg from koyeb.sandbox.utils
(not under src/).  Per spec section 4.2 the escaping must pass the
literal value, including spaces, quotes and semicolons, as a single
shell token so injection of additional commands is impossible.  We model
POSIX single-quote escaping: wrap the value in single quotes, replacing
each embedded quote by close-quote, escaped quote, reopen-quote. -/
def escape_shell_arg (s : String) : String :=
  String.mk (squote :: (escBody s.data ++ [squote]))

/-- Modelled from the spec: run_sync_in_executor from
koyeb.sandbox.utils (not under src/).  Per spec sections 2 and 5 it runs
the synchronous operation on a background worker preserving exact return
values and exact exception types, so on outcomes it is the identity. -/
def run_sync_in_executor {α : Type} (result : α) : α := result

/-- Conversion of the write_file content argument to a string: a str
passes through, bytes are decoded as utf-8 (the source always decodes
with utf-8 regardless of the encoding argument); a failing decode raises
UnicodeDecodeError before any remote call. -/
def pyContentStr (env : SandboxEnv) : PyContent → Except PyErr String
  | .pyStr s => .ok s
  | .pyBytes b =>
    match env.decode "utf-8" b with
    | some s => .ok s
    | none => .error (.unicodeDecodeError "invalid utf-8 byte sequence")

/-- SandboxFilesystem.write_file: decode bytes as utf-8, call the remote
write; a truthy error in the response raises SandboxFilesystemError; a
client exception is wrapped into SandboxFilesystemError. -/
def SandboxFilesystem.write_file (env : SandboxEnv) (path : String)
    (content : PyContent) (encoding : String) :
    Except PyErr Unit × List RemoteCall :=
  match pyContentStr env content with
  | .error e => (.error e, [])
  | .ok content_str =>
    match env.clientWrite path content_str with
    | .ok response =>
      match errVal response.error with
      | some error_msg =>
        (.error (.filesystemError ("Failed to write file: " ++ error_msg)),
         [.clientWrite path content_str])
      | none => (.ok (), [.clientWrite path content_str])
    | .exc e =>
      (.error (.filesystemError ("Failed to write file: " ++ e)),
       [.clientWrite path content_str])

/-- SandboxFilesystem.read_file: call the remote read; a truthy error is
classified with the NO_SUCH_FILE marker into SandboxFileNotFoundError,
else SandboxFilesystemError; on success the response content (default
empty) is returned as FileInfo with the requested encoding tag; a client
exception is classified the same way. -/
def SandboxFilesystem.read_file (env : SandboxEnv) (path encoding : String) :
    Except PyErr FileInfo × List RemoteCall :=
  match env.clientRead path with
  | .ok response =>
    match errVal response.error with
    | some error_msg =>
      if check_error_message error_msg "NO_SUCH_FILE" then
        (.error (.fileNotFound ("File not found: " ++ path)), [.clientRead path])
      else
        (.error (.filesystemError ("Failed to read file: " ++ error_msg)),
         [.clientRead path])
    | none =>
      (.ok { content := response.content.getD "", encoding := encoding },
       [.clientRead path])
  | .exc error_msg =>
    if check_error_message error_msg "NO_SUCH_FILE" then
      (.error (.fileNotFound ("File not found: " ++ path)), [.clientRead path])
    else
      (.error (.filesystemError ("Failed to read file: " ++ error_msg)),
       [.clientRead path])

/-- SandboxFilesystem.mkdir: call the remote make_dir; the FILE_EXISTS
marker classifies into SandboxFileExistsError; the recursive flag is
accepted but unused since the API always creates parents. -/
def SandboxFilesystem.mkdir (env : SandboxEnv) (path : String)
    (recursive : Bool) : Except PyErr Unit × List RemoteCall :=
  match env.clientMakeDir path with
  | .ok response =>
    match errVal response.error with
    | some error_msg =>
      if check_error_message error_msg "FILE_EXISTS" then
        (.error (.fileExists ("Directory already exists: " ++ path)),
         [.clientMakeDir path])
      else
        (.error (.filesystemError ("Failed to create directory: " ++ error_msg)),
         [.clientMakeDir path])
    | none => (.ok (), [.clientMakeDir path])
  | .exc error_msg =>
    if check_error_message error_msg "FILE_EXISTS" then
      (.error (.fileExists ("Directory already exists: " ++ path)),
       [.clientMakeDir path])
    else
      (.error (.filesystemError ("Failed to create directory: " ++ error_msg)),
       [.clientMakeDir path])

/-- SandboxFilesystem.list_dir: call the remote list_dir; NO_SUCH_FILE
classifies into SandboxFileNotFoundError; on success the entries list
(default empty) is returned. -/
def SandboxFilesystem.list_dir (env : SandboxEnv) (path : String) :
    Except PyErr (List String) × List RemoteCall :=
  match env.clientListDir path with
  | .ok response =>
    match errVal response.error with
    | some error_msg =>
      if check_error_message error_msg "NO_SUCH_FILE" then
        (.error (.fileNotFound ("Directory not found: " ++ path)),
         [.clientListDir path])
      else
        (.error (.filesystemError ("Failed to list directory: " ++ error_msg)),
         [.clientListDir path])
    | none => (.ok (response.entries.getD []), [.clientListDir path])
  | .exc error_msg =>
    if check_error_message error_msg "NO_SUCH_FILE" then
      (.error (.fileNotFound ("Directory not found: " ++ path)),
       [.clientListDir path])
    else
      (.error (.filesystemError ("Failed to list directory: " ++ error_msg)),
       [.clientListDir path])

/-- SandboxFilesystem.delete_file: call the remote delete_file;
NO_SUCH_FILE classifies into SandboxFileNotFoundError. -/
def SandboxFilesystem.delete_file (env : SandboxEnv) (path : String) :
    Except PyErr Unit × List RemoteCall :=
  match env.clientDeleteFile path with
  | .ok response =>
    match errVal response.error with
    | some error_msg =>
      if check_error_message error_msg "NO_SUCH_FILE" then
        (.error (.fileNotFound ("File not found: " ++ path)),
         [.clientDeleteFile path])
      else
        (.error (.filesystemError ("Failed to delete file: " ++ error_msg)),
         [.clientDeleteFile path])
    | none => (.ok (), [.clientDeleteFile path])
  | .exc error_msg =>
    if check_error_message error_msg "NO_SUCH_FILE" then
      (.error (.fileNotFound ("File not found: " ++ path)),
       [.clientDeleteFile path])
    else
      (.error (.filesystemError ("Failed to delete file: " ++ error_msg)),
       [.clientDeleteFile path])

/-- SandboxFilesystem.delete_dir: call the remote delete_dir;
NO_SUCH_FILE classifies into SandboxFileNotFoundError, then
DIR_NOT_EMPTY raises SandboxFilesystemError with a dedicated message
(there is no dedicated exception class for it in the source), else the
generic wrap. -/
def SandboxFilesystem.delete_dir (env : SandboxEnv) (path : String) :
    Except PyErr Unit × List RemoteCall :=
  match env.clientDeleteDir path with
  | .ok response =>
    match errVal response.error with
    | some error_msg =>
      if check_error_message error_msg "NO_SUCH_FILE" then
        (.error (.fileNotFound ("Directory not found: " ++ path)),
         [.clientDeleteDir path])
      else if check_error_message error_msg "DIR_NOT_EMPTY" then
        (.error (.filesystemError ("Directory not empty: " ++ path)),
         [.clientDeleteDir path])
      else
        (.error (.filesystemError ("Failed to delete directory: " ++ error_msg)),
         [.clientDeleteDir path])
    | none => (.ok (), [.clientDeleteDir path])
  | .exc error_msg =>
    if check_error_message error_msg "NO_SUCH_FILE" then
      (.error (.fileNotFound ("Directory not found: " ++ path)),
       [.clientDeleteDir path])
    else if check_error_message error_msg "DIR_NOT_EMPTY" then
      (.error (.filesystemError ("Directory not empty: " ++ path)),
       [.clientDeleteDir path])
    else
      (.error (.filesystemError ("Failed to delete directory: " ++ error_msg)),
       [.clientDeleteDir path])

/-- SandboxFilesystem.rename_file: no remote primitive, so the escaped
mv command is handed to the executor; on failure the stderr is
classified with the NO_SUCH_FILE marker. -/
def SandboxFilesystem.rename_file (env : SandboxEnv)
    (old_path new_path : String) : Except PyErr Unit × List RemoteCall :=
  let cmd := "mv " ++ escape_shell_arg old_path ++ " " ++ escape_shell_arg new_path
  let result := env.exec cmd
  if result.success then (.ok (), [.execCmd cmd])
  else if check_error_message result.stderr "NO_SUCH_FILE" then
    (.error (.fileNotFound ("File not found: " ++ old_path)), [.execCmd cmd])
  else
    (.error (.filesystemError ("Failed to rename file: " ++ result.stderr)),
     [.execCmd cmd])

/-- SandboxFilesystem.move_file: same escaped mv command as rename_file,
with the move wording in the generic failure. -/
def SandboxFilesystem.move_file (env : SandboxEnv)
    (source_path destination_path : String) :
    Except PyErr Unit × List RemoteCall :=
  let cmd := "mv " ++ escape_shell_arg source_path ++ " "
      ++ escape_shell_arg destination_path
  let result := env.exec cmd
  if result.success then (.ok (), [.execCmd cmd])
  else if check_error_message result.stderr "NO_SUCH_FILE" then
    (.error (.fileNotFound ("File not found: " ++ source_path)), [.execCmd cmd])
  else
    (.error (.filesystemError ("Failed to move file: " ++ result.stderr)),
     [.execCmd cmd])

/-- SandboxFilesystem.write_files: one write_file per entry, in list
order, with the entry encoding defaulting to utf-8; the first failure
aborts the remaining writes. -/
def SandboxFilesystem.write_files (env : SandboxEnv) :
    List FileEntry → Except PyErr Unit × List RemoteCall
  | [] => (.ok (), [])
  | e :: rest =>
    match SandboxFilesystem.write_file env e.path (.pyStr e.content)
        (e.encoding.getD "utf-8") with
    | (.ok _, t) =>
      match SandboxFilesystem.write_files env rest with
      | (r, t2) => (r, t ++ t2)
    | (.error err, t) => (.error err, t)

/-- SandboxFilesystem.exists: run test -e on the escaped path and return
the success flag; the source name is a Lean keyword, hence the trailing
underscore. -/
def SandboxFilesystem.exists_ (env : SandboxEnv) (path : String) :
    Except PyErr Bool × List RemoteCall :=
  let cmd := "test -e " ++ escape_shell_arg path
  (.ok (env.exec cmd).success, [.execCmd cmd])

/-- SandboxFilesystem.is_file: run test -f on the escaped path. -/
def SandboxFilesystem.is_file (env : SandboxEnv) (path : String) :
    Except PyErr Bool × List RemoteCall :=
  let cmd := "test -f " ++ escape_shell_arg path
  (.ok (env.exec cmd).success, [.execCmd cmd])

/-- SandboxFilesystem.is_dir: run test -d on the escaped path. -/
def SandboxFilesystem.is_dir (env : SandboxEnv) (path : String) :
    Except PyErr Bool × List RemoteCall :=
  let cmd := "test -d " ++ escape_shell_arg path
  (.ok (env.exec cmd).success, [.execCmd cmd])

/-- SandboxFilesystem.upload_file: a missing local file raises
SandboxFileNotFoundError with no remote call; base64 encoding encodes
the local bytes and writes them; any other encoding decodes the bytes
with that encoding (failure raises UnicodeDecodeError with no remote
call) and writes the text. -/
def SandboxFilesystem.upload_file (env : SandboxEnv)
    (local_path remote_path encoding : String) :
    Except PyErr Unit × List RemoteCall :=
  match env.localFiles local_path with
  | none => (.error (.fileNotFound ("Local file not found: " ++ local_path)), [])
  | some content_bytes =>
    if encoding = "base64" then
      SandboxFilesystem.write_file env remote_path
        (.pyStr (env.b64encode content_bytes)) "base64"
    else
      match env.decode encoding content_bytes with
      | some content =>
        SandboxFilesystem.write_file env remote_path (.pyStr content) encoding
      | none =>
        (.error (.unicodeDecodeError ("Cannot decode file as " ++ encoding
          ++ ". Use base64 encoding for binary files.")), [])

/-- SandboxFilesystem.download_file: read the remote file (not-found
propagates), then for base64 decode the payload to bytes and otherwise
encode the text with the requested encoding; the returned bytes model
the write-all-bytes local disk primitive applied to local_path. -/
def SandboxFilesystem.download_file (env : SandboxEnv)
    (remote_path local_path encoding : String) :
    Except PyErr (List Nat) × List RemoteCall :=
  match SandboxFilesystem.read_file env remote_path encoding with
  | (.error e, t) => (.error e, t)
  | (.ok file_info, t) =>
    if encoding = "base64" then
      match env.b64decode file_info.content with
      | some content_bytes => (.ok content_bytes, t)
      | none => (.error (.binasciiError "Invalid base64-encoded string"), t)
    else
      match env.encode encoding file_info.content with
      | some content_bytes => (.ok content_bytes, t)
      | none =>
        (.error (.unicodeEncodeError ("Cannot encode content as " ++ encoding)), t)

/-- SandboxFilesystem.ls: alias of list_dir. -/
def SandboxFilesystem.ls (env : SandboxEnv) (path : String) :
    Except PyErr (List String) × List RemoteCall :=
  SandboxFilesystem.list_dir env path

/-- SandboxFilesystem.rm: run rm or rm -rf on the escaped path; failure
stderr is classified with the NO_SUCH_FILE marker. -/
def SandboxFilesystem.rm (env : SandboxEnv) (path : String)
    (recursive : Bool) : Except PyErr Unit × List RemoteCall :=
  let cmd := if recursive then "rm -rf " ++ escape_shell_arg path
             else "rm " ++ escape_shell_arg path
  let result := env.exec cmd
  if result.success then (.ok (), [.execCmd cmd])
  else if check_error_message result.stderr "NO_SUCH_FILE" then
    (.error (.fileNotFound ("File not found: " ++ path)), [.execCmd cmd])
  else
    (.error (.filesystemError ("Failed to remove: " ++ result.stderr)),
     [.execCmd cmd])

/-- Synchronous file handle: SandboxFileIO in the source (renamed to
keep identifiers plain).  It binds a path, an open-mode string and a
closed flag. -/
structure SandboxFileIo where
  path : String
  mode : String
  closed : Bool
deriving DecidableEq

/-- SandboxFilesystem.open: build a fresh non-closed handle; the source
name is a Lean keyword, hence the trailing underscore. -/
def SandboxFilesystem.open_ (path mode : String) : SandboxFileIo :=
  { path := path, mode := mode, closed := false }

/-- SandboxFileIO.read: a mode without the letter r raises ValueError,
then a closed handle raises ValueError, both before any remote call;
otherwise the facade read_file runs with the default utf-8 encoding and
its content is returned. -/
def SandboxFileIo.read (env : SandboxEnv) (f : SandboxFileIo) :
    Except PyErr String × List RemoteCall :=
  if strContains f.mode "r" = false then
    (.error (.valueError "File not opened for reading"), [])
  else if f.closed then
    (.error (.valueError "File is closed"), [])
  else
    match SandboxFilesystem.read_file env f.path "utf-8" with
    | (.ok file_info, t) => (.ok file_info.content, t)
    | (.error e, t) => (.error e, t)

/-- SandboxFileIO.write: a mode without w and without a raises
ValueError, then a closed handle raises ValueError, both before any
remote call.  In append mode the existing content is read first and
prepended; a not-found from that pre-read is swallowed and the write
proceeds with the new content alone, while any other pre-read failure
propagates.  The final full overwrite goes through the facade
write_file with the default utf-8 encoding. -/
def SandboxFileIo.write (env : SandboxEnv) (f : SandboxFileIo)
    (content : String) : Except PyErr Unit × List RemoteCall :=
  if !(strContains f.mode "w") && !(strContains f.mode "a") then
    (.error (.valueError "File not opened for writing"), [])
  else if f.closed then
    (.error (.valueError "File is closed"), [])
  else if strContains f.mode "a" then
    match SandboxFilesystem.read_file env f.path "utf-8" with
    | (.ok existing, t) =>
      match SandboxFilesystem.write_file env f.path
          (.pyStr (existing.content ++ content)) "utf-8" with
      | (r, t2) => (r, t ++ t2)
    | (.error (.fileNotFound _), t) =>
      match SandboxFilesystem.write_file env f.path (.pyStr content) "utf-8" with
      | (r, t2) => (r, t ++ t2)
    | (.error e, t) => (.error e, t)
  else
    SandboxFilesystem.write_file env f.path (.pyStr content) "utf-8"

/-- SandboxFileIO.close: flip the closed flag; no remote call. -/
def SandboxFileIo.close (f : SandboxFileIo) : SandboxFileIo :=
  { f with closed := true }

/-- AsyncSandboxFilesystem.write_file: the synchronous operation run on
the background worker. -/
def AsyncSandboxFilesystem.write_file (env : SandboxEnv) (path : String)
    (content : PyContent) (encoding : String) :
    Except PyErr Unit × List RemoteCall :=
  run_sync_in_executor (SandboxFilesystem.write_file env path content encoding)

/-- AsyncSandboxFilesystem.read_file: deferred synchronous read_file. -/
def AsyncSandboxFilesystem.read_file (env : SandboxEnv)
    (path encoding : String) : Except PyErr FileInfo × List RemoteCall :=
  run_sync_in_executor (SandboxFilesystem.read_file env path encoding)

/-- AsyncSandboxFilesystem.mkdir: deferred synchronous mkdir. -/
def AsyncSandboxFilesystem.mkdir (env : SandboxEnv) (path : String)
    (recursive : Bool) : Except PyErr Unit × List RemoteCall :=
  run_sync_in_executor (SandboxFilesystem.mkdir env path recursive)

/-- AsyncSandboxFilesystem.list_dir: deferred synchronous list_dir. -/
def AsyncSandboxFilesystem.list_dir (env : SandboxEnv) (path : String) :
    Except PyErr (List String) × List RemoteCall :=
  run_sync_in_executor (SandboxFilesystem.list_dir env path)

/-- AsyncSandboxFilesystem.delete_file: deferred synchronous
delete_file. -/
def AsyncSandboxFilesystem.delete_file (env : SandboxEnv) (path : String) :
    Except PyErr Unit × List RemoteCall :=
  run_sync_in_executor (SandboxFilesystem.delete_file env path)

/-- AsyncSandboxFilesystem.delete_dir: deferred synchronous delete_dir. -/
def AsyncSandboxFilesystem.delete_dir (env : SandboxEnv) (path : String) :
    Except PyErr Unit × List RemoteCall :=
  run_sync_in_executor (SandboxFilesystem.delete_dir env path)

/-- AsyncSandboxFilesystem.rename_file: deferred synchronous
rename_file. -/
def AsyncSandboxFilesystem.rename_file (env : SandboxEnv)
    (old_path new_path : String) : Except PyErr Unit × List RemoteCall :=
  run_sync_in_executor (SandboxFilesystem.rename_file env old_path new_path)

/-- AsyncSandboxFilesystem.move_file: deferred synchronous move_file. -/
def AsyncSandboxFilesystem.move_file (env : SandboxEnv)
    (source_path destination_path : String) :
    Except PyErr Unit × List RemoteCall :=
  run_sync_in_executor
    (SandboxFilesystem.move_file env source_path destination_path)

/-- AsyncSandboxFilesystem.write_files: its own sequential loop, one
awaited async write_file per entry, first failure aborting the rest. -/
def AsyncSandboxFilesystem.write_files (env : SandboxEnv) :
    List FileEntry → Except PyErr Unit × List RemoteCall
  | [] => (.ok (), [])
  | e :: rest =>
    match AsyncSandboxFilesystem.write_file env e.path (.pyStr e.content)
        (e.encoding.getD "utf-8") with
    | (.ok _, t) =>
      match AsyncSandboxFilesystem.write_files env rest with
      | (r, t2) => (r, t ++ t2)
    | (.error err, t) => (.error err, t)

/-- AsyncSandboxFilesystem.exists: deferred synchronous exists. -/
def AsyncSandboxFilesystem.exists_ (env : SandboxEnv) (path : String) :
    Except PyErr Bool × List RemoteCall :=
  run_sync_in_executor (SandboxFilesystem.exists_ env path)

/-- AsyncSandboxFilesystem.is_file: deferred synchronous is_file. -/
def AsyncSandboxFilesystem.is_file (env : SandboxEnv) (path : String) :
    Except PyErr Bool × List RemoteCall :=
  run_sync_in_executor (SandboxFilesystem.is_file env path)

/-- AsyncSandboxFilesystem.is_dir: deferred synchronous is_dir. -/
def AsyncSandboxFilesystem.is_dir (env : SandboxEnv) (path : String) :
    Except PyErr Bool × List RemoteCall :=
  run_sync_in_executor (SandboxFilesystem.is_dir env path)

/-- AsyncSandboxFilesystem.upload_file: the inherited synchronous body
runs on the worker, but self is still the asynchronous instance, so the
local-file check, the local read and the base64 encode or text decode
all execute, while the inner self.write_file resolves through the
method resolution order to the asynchronous override: it returns an
un-awaited coroutine whose value the body discards.  No remote write is
ever issued and the method returns None in every branch that reaches
the write. -/
def AsyncSandboxFilesystem.upload_file (env : SandboxEnv)
    (local_path remote_path encoding : String) :
    Except PyErr Unit × List RemoteCall :=
  match env.localFiles local_path with
  | none => (.error (.fileNotFound ("Local file not found: " ++ local_path)), [])
  | some content_bytes =>
    if encoding = "base64" then
      (.ok (), [])
    else
      match env.decode encoding content_bytes with
      | some _ => (.ok (), [])
      | none =>
        (.error (.unicodeDecodeError ("Cannot decode file as " ++ encoding
          ++ ". Use base64 encoding for binary files.")), [])

/-- AsyncSandboxFilesystem.download_file: the inherited synchronous
body runs on the worker, but self is still the asynchronous instance,
so the inner self.read_file resolves through the method resolution
order to the asynchronous override and returns an un-awaited coroutine;
the immediately following access to the content attribute of that
coroutine raises AttributeError on every input, before any remote call
and before the local write. -/
def AsyncSandboxFilesystem.download_file (env : SandboxEnv)
    (remote_path local_path encoding : String) :
    Except PyErr (List Nat) × List RemoteCall :=
  (.error (.attributeError "coroutine object has no attribute content"), [])

/-- AsyncSandboxFilesystem.ls: awaits its own async list_dir. -/
def AsyncSandboxFilesystem.ls (env : SandboxEnv) (path : String) :
    Except PyErr (List String) × List RemoteCall :=
  AsyncSandboxFilesystem.list_dir env path

/-- AsyncSandboxFilesystem.rm: deferred synchronous rm. -/
def AsyncSandboxFilesystem.rm (env : SandboxEnv) (path : String)
    (recursive : Bool) : Except PyErr Unit × List RemoteCall :=
  run_sync_in_executor (SandboxFilesystem.rm env path recursive)

/-- Asynchronous file handle: AsyncSandboxFileIO in the source. -/
structure AsyncSandboxFileIo where
  path : String
  mode : String
  closed : Bool
deriving DecidableEq

/-- AsyncSandboxFilesystem.open: build a fresh non-closed async
handle. -/
def AsyncSandboxFilesystem.open_ (path mode : String) : AsyncSandboxFileIo :=
  { path := path, mode := mode, closed := false }

/-- AsyncSandboxFileIO.read: same mode and closed checks as the
synchronous handle, then the awaited async facade read_file. -/
def AsyncSandboxFileIo.read (env : SandboxEnv) (f : AsyncSandboxFileIo) :
    Except PyErr String × List RemoteCall :=
  if strContains f.mode "r" = false then
    (.error (.valueError "File not opened for reading"), [])
  else if f.closed then
    (.error (.valueError "File is closed"), [])
  else
    match AsyncSandboxFilesystem.read_file env f.path "utf-8" with
    | (.ok file_info, t) => (.ok file_info.content, t)
    | (.error e, t) => (.error e, t)

/-- AsyncSandboxFileIO.write: same checks and append pre-read as the
synchronous handle, through the awaited async facade operations. -/
def AsyncSandboxFileIo.write (env : SandboxEnv) (f : AsyncSandboxFileIo)
    (content : String) : Except PyErr Unit × List RemoteCall :=
  if !(strContains f.mode "w") && !(strContains f.mode "a") then
    (.error (.valueError "File not opened for writing"), [])
  else if f.closed then
    (.error (.valueError "File is closed"), [])
  else if strContains f.mode "a" then
    match AsyncSandboxFilesystem.read_file env f.path "utf-8" with
    | (.ok existing, t) =>
      match AsyncSandboxFilesystem.write_file env f.path
          (.pyStr (existing.content ++ content)) "utf-8" with
      | (r, t2) => (r, t ++ t2)
    | (.error (.fileNotFound _), t) =>
      match AsyncSandboxFilesystem.write_file env f.path (.pyStr content)
          "utf-8" with
      | (r, t2) => (r, t ++ t2)
    | (.error e, t) => (.error e, t)
  else
    AsyncSandboxFilesystem.write_file env f.path (.pyStr content) "utf-8"

/-- AsyncSandboxFileIO.close: flip the closed flag; no remote call. -/
def AsyncSandboxFileIo.close (f : AsyncSandboxFileIo) : AsyncSandboxFileIo :=
  { f with closed := true }

/-- Token produced by the POSIX shell lexer model: a word (one argument
after quote removal) or an unquoted control operator character. -/
inductive ShTok where
  | word (s : String)
  | op (c : Char)
deriving DecidableEq

/-- Quoting mode of the shell lexer: outside quotes, inside single
quotes, or just after an unquoted backslash. -/
inductive LexMode where
  | norm
  | single
  | esc
deriving DecidableEq

/-- State of the shell lexer: tokens already produced in order, the
characters of the word under construction in reverse (none when between
words), and the quoting mode. -/
structure LexSt where
  toks : List ShTok
  cur : Option (List Char)
  mode : LexMode
deriving DecidableEq

/-- Characters that, unquoted, are shell control or expansion syntax:
semicolon, ampersand, pipe, redirections, parentheses, newline,
backquote, dollar and double quote. -/
def shMeta (c : Char) : Bool :=
  c = Char.ofNat 59 || c = Char.ofNat 38 || c = Char.ofNat 124 ||
  c = Char.ofNat 60 || c = Char.ofNat 62 || c = Char.ofNat 40 ||
  c = Char.ofNat 41 || c = Char.ofNat 10 || c = Char.ofNat 96 ||
  c = Char.ofNat 36 || c = Char.ofNat 34

/-- One step of the shell lexer on a character. -/
def lexStep (st : LexSt) (c : Char) : LexSt :=
  match st.mode with
  | .esc => { st with cur := some (c :: st.cur.getD []), mode := .norm }
  | .single =>
    if c = squote then { st with mode := .norm }
    else { st with cur := some (c :: st.cur.getD []) }
  | .norm =>
    if c = squote then { st with cur := some (st.cur.getD []), mode := .single }
    else if c = bslash then { st with cur := some (st.cur.getD []), mode := .esc }
    else if c = ' ' then
      match st.cur with
      | some w => { st with toks := st.toks ++ [.word (String.mk w.reverse)],
                            cur := none }
      | none => st
    else if shMeta c then
      { toks := (match st.cur with
          | some w => st.toks ++ [.word (String.mk w.reverse)]
          | none => st.toks) ++ [.op c],
        cur := none, mode := .norm }
    else { st with cur := some (c :: st.cur.getD []) }

/-- Run of the shell lexer over a character list. -/
def lexRun : List Char → LexSt → LexSt
  | [], st => st
  | c :: cs, st => lexRun cs (lexStep st c)

/-- Final flush of the shell lexer: an unterminated quote or escape is a
parse error, otherwise a pending word is emitted. -/
def finishLex (st : LexSt) : Option (List ShTok) :=
  match st.mode with
  | .norm =>
    match st.cur with
    | some w => some (st.toks ++ [.word (String.mk w.reverse)])
    | none => some st.toks
  | _ => none

/-- Tokenization of a full command string under the POSIX shell model:
the token list, or none for an unterminated construct. -/
def shLex (s : String) : Option (List ShTok) :=
  finishLex (lexRun s.data { toks := [], cur := none, mode := .norm })

/-- An operation outcome is a usage error when it is the ValueError the
handles raise for local pre-condition violations. -/
def isUsageResult {α : Type} : Except PyErr α → Bool
  | .error (.valueError _) => true
  | _ => false

/-- A client response with no error and no payload. -/
def okResp : ClientResponse :=
  { error := none, content := none, entries := none }

/-- A collaborator environment whose remote calls all succeed, storing
the string hello at the path /a.txt and reporting a no-such-file error
for every other read. -/
def stubEnv : SandboxEnv where
  clientWrite := fun _ _ => .ok okResp
  clientRead := fun p =>
    if p = "/a.txt" then
      .ok { error := none, content := some "hello", entries := none }
    else
      .ok { error := some "open: no such file or directory",
            content := none, entries := none }
  clientMakeDir := fun _ => .ok okResp
  clientListDir := fun _ =>
    .ok { error := none, content := none, entries := some ["x"] }
  clientDeleteFile := fun _ => .ok okResp
  clientDeleteDir := fun _ => .ok okResp
  exec := fun _ => { success := true, stdout := "", stderr := "" }
  localFiles := fun _ => none
  decode := fun _ b => if b = [104, 105] then some "hi" else none
  encode := fun _ _ => some [104, 105]
  b64encode := fun _ => "aGk="
  b64decode := fun _ => some [104, 105]

/-- An environment whose executor fails every command with a
no-such-file stderr, as the sandbox shell does when an escaped path
names no existing file. -/
def failEnv : SandboxEnv :=
  { stubEnv with
    exec := fun _ =>
      { success := false, stdout := "",
        stderr := "mv: cannot stat: no such file or directory" } }

/-- An environment whose delete_dir call reports a directory-not-empty
error. -/
def notEmptyEnv : SandboxEnv :=
  { stubEnv with
    clientDeleteDir := fun _ =>
      .ok { error := some "rmdir: directory not empty",
            content := none, entries := none } }

/-- An environment whose delete_dir call reports an unclassified
error. -/
def genericFailEnv : SandboxEnv :=
  { stubEnv with
    clientDeleteDir := fun _ =>
      .ok { error := some "boom", content := none, entries := none } }

/-- An environment that rejects writes to the path /bad with a disk-full
error and accepts every other write. -/
def midFailEnv : SandboxEnv :=
  { stubEnv with
    clientWrite := fun p _ =>
      if p = "/bad" then
        .ok { error := some "disk full", content := none, entries := none }
      else .ok okResp }

/-- An environment holding the local file /local/hi with the byte pair
hi, whose remote writes all succeed. -/
def uploadEnv : SandboxEnv :=
  { stubEnv with
    localFiles := fun p => if p = "/local/hi" then some [104, 105] else none }

/-- The same local file, with a collaborator that rejects every remote
write with a disk-full error. -/
def uploadRejectEnv : SandboxEnv :=
  { uploadEnv with
    clientWrite := fun _ _ =>
      .ok { error := some "disk full", content := none, entries := none } }

/-- The remote write call a write_files entry issues. -/
def writeCallOf (e : FileEntry) : RemoteCall :=
  .clientWrite e.path e.content

/-- The outcome of the write_file call a write_files entry issues. -/
def writeResultOf (env : SandboxEnv) (e : FileEntry) : Except PyErr Unit :=
  (SandboxFilesystem.write_file env e.path (.pyStr e.content)
    (e.encoding.getD "utf-8")).fst

lemma lexRun_cons (c : Char) (cs : List Char) (st : LexSt) :
    lexRun (c :: cs) st = lexRun cs (lexStep st c) := rfl

lemma lexRun_append (a b : List Char) (st : LexSt) :
    lexRun (a ++ b) st = lexRun b (lexRun a st) := by
  induction a generalizing st with
  | nil => rfl
  | cons c cs ih => simp [lexRun_cons, ih]

lemma lexStep_single_squote (toks : List ShTok) (rev : List Char) :
    lexStep { toks := toks, cur := some rev, mode := .single } squote =
      { toks := toks, cur := some rev, mode := .norm } := by
  simp [lexStep]

lemma lexStep_single_ne (toks : List ShTok) (rev : List Char) (c : Char)
    (h : ¬ c = squote) :
    lexStep { toks := toks, cur := some rev, mode := .single } c =
      { toks := toks, cur := some (c :: rev), mode := .single } := by
  simp [lexStep, h]

lemma lexStep_norm_squote_some (toks : List ShTok) (rev : List Char) :
    lexStep { toks := toks, cur := some rev, mode := .norm } squote =
      { toks := toks, cur := some rev, mode := .single } := by
  simp [lexStep]

lemma lexStep_norm_squote_none (toks : List ShTok) :
    lexStep { toks := toks, cur := none, mode := .norm } squote =
      { toks := toks, cur := some [], mode := .single } := by
  simp [lexStep]

lemma lexStep_norm_bslash_some (toks : List ShTok) (rev : List Char) :
    lexStep { toks := toks, cur := some rev, mode := .norm } bslash =
      { toks := toks, cur := some rev, mode := .esc } := by
  have h : ¬ (bslash = squote) := by decide
  simp [lexStep, h]

lemma lexStep_esc_some (toks : List ShTok) (rev : List Char) (c : Char) :
    lexStep { toks := toks, cur := some rev, mode := .esc } c =
      { toks := toks, cur := some (c :: rev), mode := .norm } := by
  simp [lexStep]

lemma lexStep_norm_space (toks : List ShTok) (rev : List Char) :
    lexStep { toks := toks, cur := some rev, mode := .norm } ' ' =
      { toks := toks ++ [.word (String.mk rev.reverse)], cur := none,
        mode := .norm } := by
  have h1 : ¬ (' ' = squote) := by decide
  have h2 : ¬ (' ' = bslash) := by decide
  simp [lexStep, h1, h2]

lemma lexRun_escBody (cs : List Char) (toks : List ShTok) (rev : List Char) :
    lexRun (escBody cs) { toks := toks, cur := some rev, mode := .single } =
      { toks := toks, cur := some (cs.reverse ++ rev), mode := .single } := by
  induction cs generalizing rev with
  | nil => simp [escBody, lexRun]
  | cons c cs ih =>
    by_cases h : c = squote
    · subst h
      have e1 : escBody (squote :: cs)
          = squote :: bslash :: squote :: squote :: escBody cs := by
        simp [escBody, escChar]
      rw [e1, lexRun_cons, lexStep_single_squote, lexRun_cons,
        lexStep_norm_bslash_some, lexRun_cons, lexStep_esc_some, lexRun_cons,
        lexStep_norm_squote_some, ih]
      simp
    · have e1 : escBody (c :: cs) = c :: escBody cs := by
        simp [escBody, escChar, h]
      rw [e1, lexRun_cons, lexStep_single_ne toks rev c h, ih]
      simp

lemma lexRun_escArg (p : String) (toks : List ShTok) :
    lexRun (escape_shell_arg p).data { toks := toks, cur := none, mode := .norm }
      = { toks := toks, cur := some p.data.reverse, mode := .norm } := by
  have e : (escape_shell_arg p).data = squote :: (escBody p.data ++ [squote]) :=
    rfl
  rw [e, lexRun_cons, lexStep_norm_squote_none, lexRun_append, lexRun_escBody,
    lexRun_cons, List.append_nil, lexStep_single_squote]
  rfl

lemma finishLex_norm_some (toks : List ShTok) (rev : List Char) :
    finishLex { toks := toks, cur := some rev, mode := .norm } =
      some (toks ++ [.word (String.mk rev.reverse)]) := rfl

lemma shLex_one_arg (pre : String) (toks : List ShTok) (p : String)
    (h : lexRun pre.data { toks := [], cur := none, mode := .norm } =
         { toks := toks, cur := none, mode := .norm }) :
    shLex (pre ++ escape_shell_arg p) = some (toks ++ [.word p]) := by
  unfold shLex
  rw [String.data_append, lexRun_append, h, lexRun_escArg, finishLex_norm_some,
    List.reverse_reverse]

lemma shLex_two_args (pre : String) (toks : List ShTok) (p q : String)
    (h : lexRun pre.data { toks := [], cur := none, mode := .norm } =
         { toks := toks, cur := none, mode := .norm }) :
    shLex (pre ++ escape_shell_arg p ++ " " ++ escape_shell_arg q) =
      some (toks ++ [.word p, .word q]) := by
  unfold shLex
  rw [String.data_append, String.data_append, String.data_append,
    lexRun_append, lexRun_append, lexRun_append, h, lexRun_escArg]
  have hsp : lexRun (" " : String).data
      { toks := toks, cur := some p.data.reverse, mode := .norm } =
      { toks := toks ++ [.word p], cur := none, mode := .norm } := by
    have e : (" " : String).data = [' '] := rfl
    rw [e, lexRun_cons, lexStep_norm_space, List.reverse_reverse]
    rfl
  rw [hsp, lexRun_escArg, finishLex_norm_some, List.reverse_reverse]
  simp

lemma lex_pre_mv :
    lexRun ("mv " : String).data { toks := [], cur := none, mode := .norm } =
      { toks := [ShTok.word "mv"], cur := none, mode := .norm } := by decide

lemma lex_pre_rm :
    lexRun ("rm " : String).data { toks := [], cur := none, mode := .norm } =
      { toks := [ShTok.word "rm"], cur := none, mode := .norm } := by decide

lemma lex_pre_rmrf :
    lexRun ("rm -rf " : String).data { toks := [], cur := none, mode := .norm }
      = { toks := [ShTok.word "rm", ShTok.word "-rf"], cur := none,
          mode := .norm } := by decide

lemma lex_pre_test_e :
    lexRun ("test -e " : String).data { toks := [], cur := none, mode := .norm }
      = { toks := [ShTok.word "test", ShTok.word "-e"], cur := none,
          mode := .norm } := by decide

lemma lex_pre_test_f :
    lexRun ("test -f " : String).data { toks := [], cur := none, mode := .norm }
      = { toks := [ShTok.word "test", ShTok.word "-f"], cur := none,
          mode := .norm } := by decide

lemma lex_pre_test_d :
    lexRun ("test -d " : String).data { toks := [], cur := none, mode := .norm }
      = { toks := [ShTok.word "test", ShTok.word "-d"], cur := none,
          mode := .norm } := by decide

/-- C1: every path argument passed to rename_file, move_file, rm,
exists, is_file or is_dir reaches the command executor as a single
escaped shell token.  Under the POSIX lexer model each command string
tokenizes to exactly the command name, its flags and the literal path
values as word tokens and never an unquoted operator, so an injected
command embedded in the path is never executed; and when the executor
consequently fails on the whole string as one path (no-such-file
stderr), the operations raise the not-found error while the boolean
checks return false. -/
theorem shell_paths_single_token (env : SandboxEnv) (p q : String)
    (hfail : ∀ cmd, (env.exec cmd).success = false)
    (hmark : ∀ cmd,
      check_error_message (env.exec cmd).stderr "NO_SUCH_FILE" = true) :
    (shLex ("mv " ++ escape_shell_arg p ++ " " ++ escape_shell_arg q) =
        some [.word "mv", .word p, .word q]
      ∧ shLex ("rm " ++ escape_shell_arg p) = some [.word "rm", .word p]
      ∧ shLex ("rm -rf " ++ escape_shell_arg p) =
        some [.word "rm", .word "-rf", .word p]
      ∧ shLex ("test -e " ++ escape_shell_arg p) =
        some [.word "test", .word "-e", .word p]
      ∧ shLex ("test -f " ++ escape_shell_arg p) =
        some [.word "test", .word "-f", .word p]
      ∧ shLex ("test -d " ++ escape_shell_arg p) =
        some [.word "test", .word "-d", .word p])
    ∧ ((SandboxFilesystem.rename_file env p q).snd =
        [.execCmd ("mv " ++ escape_shell_arg p ++ " " ++ escape_shell_arg q)]
      ∧ (SandboxFilesystem.move_file env p q).snd =
        [.execCmd ("mv " ++ escape_shell_arg p ++ " " ++ escape_shell_arg q)]
      ∧ (SandboxFilesystem.rm env p false).snd =
        [.execCmd ("rm " ++ escape_shell_arg p)]
      ∧ (SandboxFilesystem.rm env p true).snd =
        [.execCmd ("rm -rf " ++ escape_shell_arg p)]
      ∧ (SandboxFilesystem.exists_ env p).snd =
        [.execCmd ("test -e " ++ escape_shell_arg p)]
      ∧ (SandboxFilesystem.is_file env p).snd =
        [.execCmd ("test -f " ++ escape_shell_arg p)]
      ∧ (SandboxFilesystem.is_dir env p).snd =
        [.execCmd ("test -d " ++ escape_shell_arg p)])
    ∧ ((SandboxFilesystem.rename_file env p q).fst =
        .error (.fileNotFound ("File not found: " ++ p))
      ∧ (SandboxFilesystem.move_file env p q).fst =
        .error (.fileNotFound ("File not found: " ++ p))
      ∧ (SandboxFilesystem.rm env p false).fst =
        .error (.fileNotFound ("File not found: " ++ p))
      ∧ (SandboxFilesystem.rm env p true).fst =
        .error (.fileNotFound ("File not found: " ++ p))
      ∧ (SandboxFilesystem.exists_ env p).fst = .ok false
      ∧ (SandboxFilesystem.is_file env p).fst = .ok false
      ∧ (SandboxFilesystem.is_dir env p).fst = .ok false) := by
  refine ⟨⟨?_, ?_, ?_, ?_, ?_, ?_⟩, ⟨?_, ?_, ?_, ?_, ?_, ?_, ?_⟩,
    ⟨?_, ?_, ?_, ?_, ?_, ?_, ?_⟩⟩
  · exact shLex_two_args "mv " [.word "mv"] p q lex_pre_mv
  · exact shLex_one_arg "rm " [.word "rm"] p lex_pre_rm
  · exact shLex_one_arg "rm -rf " [.word "rm", .word "-rf"] p lex_pre_rmrf
  · exact shLex_one_arg "test -e " [.word "test", .word "-e"] p lex_pre_test_e
  · exact shLex_one_arg "test -f " [.word "test", .word "-f"] p lex_pre_test_f
  · exact shLex_one_arg "test -d " [.word "test", .word "-d"] p lex_pre_test_d
  · simp [SandboxFilesystem.rename_file, hfail, hmark]
  · simp [SandboxFilesystem.move_file, hfail, hmark]
  · simp [SandboxFilesystem.rm, hfail, hmark]
  · simp [SandboxFilesystem.rm, hfail, hmark]
  · simp [SandboxFilesystem.exists_]
  · simp [SandboxFilesystem.is_file]
  · simp [SandboxFilesystem.is_dir]
  · simp [SandboxFilesystem.rename_file, hfail, hmark]
  · simp [SandboxFilesystem.move_file, hfail, hmark]
  · simp [SandboxFilesystem.rm, hfail, hmark]
  · simp [SandboxFilesystem.rm, hfail, hmark]
  · simp [SandboxFilesystem.exists_, hfail]
  · simp [SandboxFilesystem.is_file, hfail]
  · simp [SandboxFilesystem.is_dir, hfail]

/-- Witness for C1: a path carrying an injected rm command, under the
environment whose executor fails every command with a no-such-file
stderr; the command tokenizes to the literal path as one word and rm
raises the not-found error. -/
theorem shell_paths_single_token_witness :
    (failEnv.exec "any").success = false
      ∧ shLex ("rm " ++ escape_shell_arg "a; rm -rf /") =
        some [.word "rm", .word "a; rm -rf /"]
      ∧ (SandboxFilesystem.rm failEnv "a; rm -rf /" false).fst =
        .error (.fileNotFound "File not found: a; rm -rf /") := by
  have hm : check_error_message "mv: cannot stat: no such file or directory"
      "NO_SUCH_FILE" = true := by decide
  refine ⟨rfl, ?_, ?_⟩
  · exact (shell_paths_single_token failEnv "a; rm -rf /" "b"
      (fun _ => rfl) (fun _ => hm)).1.2.1
  · exact (shell_paths_single_token failEnv "a; rm -rf /" "b"
      (fun _ => rfl) (fun _ => hm)).2.2.2.2.1

/-- C2: the asynchronous facade is not equivalent to the synchronous
one.  The inherited upload_file and download_file bodies dispatch their
inner write and read through self to the asynchronous overrides,
producing un-awaited coroutines.  Evaluated at the failing inputs: with
the local file /local/hi present, the synchronous upload_file issues
the remote write (and raises SandboxFilesystemError when the
collaborator rejects it), while the asynchronous upload_file issues no
remote call at all and returns None in both cases; the synchronous
download_file returns the downloaded bytes of the stored file /a.txt,
while the asynchronous download_file raises AttributeError with no
remote call. -/
theorem async_upload_download_diverge :
    SandboxFilesystem.upload_file uploadEnv "/local/hi" "/f" "utf-8" =
      (.ok (), [.clientWrite "/f" "hi"])
    ∧ AsyncSandboxFilesystem.upload_file uploadEnv "/local/hi" "/f" "utf-8" =
      (.ok (), [])
    ∧ SandboxFilesystem.upload_file uploadRejectEnv "/local/hi" "/f" "utf-8" =
      (.error (.filesystemError "Failed to write file: disk full"),
       [.clientWrite "/f" "hi"])
    ∧ AsyncSandboxFilesystem.upload_file uploadRejectEnv "/local/hi" "/f"
        "utf-8" = (.ok (), [])
    ∧ SandboxFilesystem.download_file stubEnv "/a.txt" "/out" "utf-8" =
      (.ok [104, 105], [.clientRead "/a.txt"])
    ∧ AsyncSandboxFilesystem.download_file stubEnv "/a.txt" "/out" "utf-8" =
      (.error (.attributeError "coroutine object has no attribute content"),
       []) :=
  ⟨rfl, rfl, rfl, rfl, rfl, rfl⟩

lemma write_file_str_trace (env : SandboxEnv) (p c e : String) :
    (SandboxFilesystem.write_file env p (.pyStr c) e).snd =
      [.clientWrite p c] := by
  cases hcw : env.clientWrite p c with
  | ok r =>
    cases hr : errVal r.error with
    | none => simp [SandboxFilesystem.write_file, pyContentStr, hcw, hr]
    | some m => simp [SandboxFilesystem.write_file, pyContentStr, hcw, hr]
  | exc m => simp [SandboxFilesystem.write_file, pyContentStr, hcw]

lemma write_file_str_not_usage (env : SandboxEnv) (p c e : String) :
    isUsageResult (SandboxFilesystem.write_file env p (.pyStr c) e).fst =
      false := by
  cases hcw : env.clientWrite p c with
  | ok r =>
    cases hr : errVal r.error with
    | none =>
      simp [SandboxFilesystem.write_file, pyContentStr, hcw, hr, isUsageResult]
    | some m =>
      simp [SandboxFilesystem.write_file, pyContentStr, hcw, hr, isUsageResult]
  | exc m =>
    simp [SandboxFilesystem.write_file, pyContentStr, hcw, isUsageResult]

lemma read_file_trace (env : SandboxEnv) (p e : String) :
    (SandboxFilesystem.read_file env p e).snd = [.clientRead p] := by
  cases hcr : env.clientRead p with
  | ok r =>
    cases hr : errVal r.error with
    | none => simp [SandboxFilesystem.read_file, hcr, hr]
    | some m =>
      by_cases hc : check_error_message m "NO_SUCH_FILE" <;>
        simp [SandboxFilesystem.read_file, hcr, hr, hc]
  | exc m =>
    by_cases hc : check_error_message m "NO_SUCH_FILE" <;>
      simp [SandboxFilesystem.read_file, hcr, hc]

lemma read_file_not_usage (env : SandboxEnv) (p e : String) :
    isUsageResult (SandboxFilesystem.read_file env p e).fst = false := by
  cases hcr : env.clientRead p with
  | ok r =>
    cases hr : errVal r.error with
    | none => simp [SandboxFilesystem.read_file, hcr, hr, isUsageResult]
    | some m =>
      by_cases hc : check_error_message m "NO_SUCH_FILE" <;>
        simp [SandboxFilesystem.read_file, hcr, hr, hc, isUsageResult]
  | exc m =>
    by_cases hc : check_error_message m "NO_SUCH_FILE" <;>
      simp [SandboxFilesystem.read_file, hcr, hc, isUsageResult]

/-- C8: exists, is_file and is_dir return exactly the success flag of
the executed test command as their boolean and never produce an error:
every collaborator outcome is reduced to that boolean. -/
theorem bool_checks_reduce_success (env : SandboxEnv) (p : String) :
    SandboxFilesystem.exists_ env p =
      (.ok (env.exec ("test -e " ++ escape_shell_arg p)).success,
       [.execCmd ("test -e " ++ escape_shell_arg p)])
    ∧ SandboxFilesystem.is_file env p =
      (.ok (env.exec ("test -f " ++ escape_shell_arg p)).success,
       [.execCmd ("test -f " ++ escape_shell_arg p)])
    ∧ SandboxFilesystem.is_dir env p =
      (.ok (env.exec ("test -d " ++ escape_shell_arg p)).success,
       [.execCmd ("test -d " ++ escape_shell_arg p)]) :=
  ⟨rfl, rfl, rfl⟩

/-- C10: the encoding argument of write_file has no effect: any two
encodings yield the identical remote write call and identical outcome;
and bytes content is decoded as utf-8 whatever the encoding argument
says, base64 included. -/
theorem write_file_encoding_inert :
    (∀ env p c e1 e2, SandboxFilesystem.write_file env p c e1 =
      SandboxFilesystem.write_file env p c e2)
    ∧ (∀ env p b e s, env.decode "utf-8" b = some s →
      SandboxFilesystem.write_file env p (.pyBytes b) e =
        SandboxFilesystem.write_file env p (.pyStr s) e) := by
  constructor
  · intro env p c e1 e2
    rfl
  · intro env p b e s h
    simp [SandboxFilesystem.write_file, pyContentStr, h]

/-- Witness for C10: the byte pair hi written with the base64 encoding
argument equals the utf-8-decoded string write. -/
theorem write_file_encoding_inert_witness :
    stubEnv.decode "utf-8" [104, 105] = some "hi"
    ∧ SandboxFilesystem.write_file stubEnv "/f" (.pyBytes [104, 105]) "base64"
      = SandboxFilesystem.write_file stubEnv "/f" (.pyStr "hi") "base64" :=
  ⟨rfl, write_file_encoding_inert.2 stubEnv "/f" [104, 105] "base64" "hi" rfl⟩

/-- C4 counterexample: write_file on the empty path and exists on a
whitespace-only path are not rejected locally: the remote call is issued
and the operations do not raise a usage error, contradicting the claimed
fail-fast UsageError with no remote call or shell command attempted. -/
theorem empty_path_issues_remote_call :
    SandboxFilesystem.write_file stubEnv "" (.pyStr "x") "utf-8" =
      (.ok (), [.clientWrite "" "x"])
    ∧ SandboxFilesystem.exists_ stubEnv "   " =
      (.ok true, [.execCmd ("test -e " ++ escape_shell_arg "   ")]) :=
  ⟨rfl, rfl⟩

/-- C4 amended: the facade performs no local path validation at all:
for every path argument, the empty and whitespace-only strings included,
the remote call or shell command is attempted with that very path and no
usage error is ever raised by these operations; local fail-fast
UsageError pre-conditions exist only on the file handles. -/
theorem no_local_path_precondition (env : SandboxEnv) (p c e : String) :
    (SandboxFilesystem.write_file env p (.pyStr c) e).snd = [.clientWrite p c]
    ∧ isUsageResult (SandboxFilesystem.write_file env p (.pyStr c) e).fst =
      false
    ∧ (SandboxFilesystem.read_file env p e).snd = [.clientRead p]
    ∧ isUsageResult (SandboxFilesystem.read_file env p e).fst = false
    ∧ (SandboxFilesystem.exists_ env p).snd =
      [.execCmd ("test -e " ++ escape_shell_arg p)]
    ∧ isUsageResult (SandboxFilesystem.exists_ env p).fst = false :=
  ⟨write_file_str_trace env p c e, write_file_str_not_usage env p c e,
   read_file_trace env p e, read_file_not_usage env p e, rfl, rfl⟩

/-- C5: a write of content c at path p followed by a read of p returns
content equal to c, for any encoding argument (utf-8 and base64 both
included), under the assumption that the collaborator faithfully stores
and returns what was written. -/
theorem write_read_round_trip (env : SandboxEnv) (p c e : String)
    (wr rr : ClientResponse)
    (hw : env.clientWrite p c = .ok wr) (hwe : wr.error = none)
    (hr : env.clientRead p = .ok rr) (hre : rr.error = none)
    (hrc : rr.content = some c) :
    SandboxFilesystem.write_file env p (.pyStr c) e =
      (.ok (), [.clientWrite p c])
    ∧ (SandboxFilesystem.read_file env p e).fst =
      .ok { content := c, encoding := e } := by
  constructor
  · simp [SandboxFilesystem.write_file, pyContentStr, hw, hwe, errVal]
  · simp [SandboxFilesystem.read_file, hr, hre, hrc, errVal]

/-- Witness for C5 at the stored file /a.txt with content hello, for the
utf-8 and the base64 encoding tags. -/
theorem write_read_round_trip_witness :
    stubEnv.clientRead "/a.txt" =
      .ok { error := none, content := some "hello", entries := none }
    ∧ SandboxFilesystem.write_file stubEnv "/a.txt" (.pyStr "hello") "utf-8" =
      (.ok (), [.clientWrite "/a.txt" "hello"])
    ∧ (SandboxFilesystem.read_file stubEnv "/a.txt" "utf-8").fst =
      .ok { content := "hello", encoding := "utf-8" }
    ∧ (SandboxFilesystem.read_file stubEnv "/a.txt" "base64").fst =
      .ok { content := "hello", encoding := "base64" } := by
  refine ⟨rfl, ?_, ?_, ?_⟩
  · exact (write_read_round_trip stubEnv "/a.txt" "hello" "utf-8" okResp
      { error := none, content := some "hello", entries := none }
      rfl rfl rfl rfl rfl).1
  · exact (write_read_round_trip stubEnv "/a.txt" "hello" "utf-8" okResp
      { error := none, content := some "hello", entries := none }
      rfl rfl rfl rfl rfl).2
  · exact (write_read_round_trip stubEnv "/a.txt" "hello" "base64" okResp
      { error := none, content := some "hello", entries := none }
      rfl rfl rfl rfl rfl).2

/-- C3 counterexample: on a collaborator error matching the
directory-not-empty marker, delete_dir raises the plain
SandboxFilesystemError constructor — the very same failure kind used for
the generic remote failure (second conjunct) — not a failure kind
separate from the generic filesystem failure: the source defines no
dedicated NotEmpty exception class. -/
theorem delete_dir_not_empty_generic_kind :
    (SandboxFilesystem.delete_dir notEmptyEnv "/d").fst =
      .error (.filesystemError "Directory not empty: /d")
    ∧ (SandboxFilesystem.delete_dir genericFailEnv "/d").fst =
      .error (.filesystemError "Failed to delete directory: boom") := by
  constructor <;> decide

/-- C3 amended: on a collaborator error matching the
directory-not-empty marker (and not the no-such-file marker), delete_dir
raises SandboxFilesystemError carrying the dedicated Directory-not-empty
message — distinguishable from NotFound and AlreadyExists by its class
but sharing the class of the generic filesystem failure, since the
source taxonomy has no separate NotEmpty exception; and once the
collaborator reports success (all children removed), delete_dir on the
same path succeeds. -/
theorem delete_dir_not_empty_message (env : SandboxEnv) (p em : String)
    (r : ClientResponse)
    (h : env.clientDeleteDir p = .ok r) (hr : r.error = some em)
    (hne : ¬ em = "")
    (h1 : check_error_message em "NO_SUCH_FILE" = false)
    (h2 : check_error_message em "DIR_NOT_EMPTY" = true) :
    (SandboxFilesystem.delete_dir env p).fst =
      .error (.filesystemError ("Directory not empty: " ++ p))
    ∧ ∀ env2 : SandboxEnv, env2.clientDeleteDir p = .ok okResp →
      SandboxFilesystem.delete_dir env2 p = (.ok (), [.clientDeleteDir p]) := by
  constructor
  · simp [SandboxFilesystem.delete_dir, h, hr, errVal, hne, h1, h2]
  · intro env2 h2e
    simp [SandboxFilesystem.delete_dir, h2e, okResp, errVal]

/-- Witness for the amended C3 at the not-empty environment and the
all-succeeding environment. -/
theorem delete_dir_not_empty_message_witness :
    check_error_message "rmdir: directory not empty" "DIR_NOT_EMPTY" = true
    ∧ (SandboxFilesystem.delete_dir notEmptyEnv "/d").fst =
      .error (.filesystemError "Directory not empty: /d")
    ∧ SandboxFilesystem.delete_dir stubEnv "/d" =
      (.ok (), [.clientDeleteDir "/d"]) := by
  refine ⟨by decide, ?_, ?_⟩
  · exact (delete_dir_not_empty_message notEmptyEnv "/d"
      "rmdir: directory not empty"
      { error := some "rmdir: directory not empty", content := none,
        entries := none }
      rfl rfl (by decide) (by decide) (by decide)).1
  · exact (delete_dir_not_empty_message notEmptyEnv "/d"
      "rmdir: directory not empty"
      { error := some "rmdir: directory not empty", content := none,
        entries := none }
      rfl rfl (by decide) (by decide) (by decide)).2 stubEnv rfl

lemma write_files_cons_eval (env : SandboxEnv) (e : FileEntry)
    (rest : List FileEntry) :
    SandboxFilesystem.write_files env (e :: rest) =
      match writeResultOf env e with
      | .ok _ =>
        ((SandboxFilesystem.write_files env rest).fst,
         writeCallOf e :: (SandboxFilesystem.write_files env rest).snd)
      | .error err => (.error err, [writeCallOf e]) := by
  have hp : SandboxFilesystem.write_file env e.path (.pyStr e.content)
      (e.encoding.getD "utf-8") = (writeResultOf env e, [writeCallOf e]) := by
    have ht := write_file_str_trace env e.path e.content
      (e.encoding.getD "utf-8")
    unfold writeCallOf writeResultOf
    rw [← ht]
  show (match SandboxFilesystem.write_file env e.path (.pyStr e.content)
      (e.encoding.getD "utf-8") with
    | (.ok _, t) =>
      match SandboxFilesystem.write_files env rest with
      | (r, t2) => (r, t ++ t2)
    | (.error err, t) => (.error err, t)) = _
  rw [hp]
  cases hres : writeResultOf env e with
  | ok u =>
    cases u
    cases hrest : SandboxFilesystem.write_files env rest with
    | mk r t2 => simp [hrest]
  | error err => simp

/-- C9: write_files issues one write_file remote call per entry in list
order; when every entry succeeds all are written in order, and the first
failing entry aborts the operation: the entries before it have been
written, the failing entry was attempted, and the entries after it are
never attempted. -/
theorem write_files_sequential :
    (∀ env l, (∀ e ∈ l, writeResultOf env e = .ok ()) →
      SandboxFilesystem.write_files env l = (.ok (), l.map writeCallOf))
    ∧ (∀ env pre bad post err,
      (∀ e ∈ pre, writeResultOf env e = .ok ()) →
      writeResultOf env bad = .error err →
      SandboxFilesystem.write_files env (pre ++ bad :: post) =
        (.error err, pre.map writeCallOf ++ [writeCallOf bad])) := by
  constructor
  · intro env l
    induction l with
    | nil => intro _; rfl
    | cons e rest ih =>
      intro h
      have he : writeResultOf env e = .ok () := h e (List.mem_cons_self e rest)
      have hrest := ih (fun x hx => h x (List.mem_cons_of_mem e hx))
      rw [write_files_cons_eval env e rest, he, hrest]
      simp
  · intro env pre bad post err hok hbad
    induction pre with
    | nil =>
      rw [List.nil_append, write_files_cons_eval env bad post, hbad]
      simp
    | cons e pre ih =>
      have he : writeResultOf env e = .ok () :=
        hok e (List.mem_cons_self e pre)
      have hrest := ih (fun x hx => hok x (List.mem_cons_of_mem e hx))
      rw [List.cons_append, write_files_cons_eval env e (pre ++ bad :: post),
        he, hrest]
      simp

/-- Witness for C9: three entries where the middle write fails with a
disk-full error: the first is written, the second attempted and
reported, the third never attempted. -/
theorem write_files_sequential_witness :
    writeResultOf midFailEnv
      { path := "/bad", content := "x", encoding := none } =
      .error (.filesystemError "Failed to write file: disk full")
    ∧ SandboxFilesystem.write_files midFailEnv
      [{ path := "/f1", content := "c1", encoding := none },
       { path := "/bad", content := "x", encoding := none },
       { path := "/f3", content := "c3", encoding := none }] =
      (.error (.filesystemError "Failed to write file: disk full"),
       [.clientWrite "/f1" "c1", .clientWrite "/bad" "x"]) := by
  refine ⟨by decide, ?_⟩
  exact write_files_sequential.2 midFailEnv
    [{ path := "/f1", content := "c1", encoding := none }]
    { path := "/bad", content := "x", encoding := none }
    [{ path := "/f3", content := "c3", encoding := none }]
    (.filesystemError "Failed to write file: disk full")
    (by decide) (by decide)

/-- C6: on an open append-mode handle, write first issues the pre-read
of the existing remote content and then a full overwrite of existing
content followed by the new content; when the pre-read raises the
not-found failure it is swallowed and the write proceeds as if the
existing content were empty, so no error surfaces from the missing-file
pre-read; the asynchronous handle behaves identically. -/
theorem append_write_pre_read (env : SandboxEnv) (f : SandboxFileIo)
    (content : String) (ha : strContains f.mode "a" = true)
    (hc : f.closed = false) :
    (∀ fi t, SandboxFilesystem.read_file env f.path "utf-8" = (.ok fi, t) →
      SandboxFileIo.write env f content =
        ((SandboxFilesystem.write_file env f.path
            (.pyStr (fi.content ++ content)) "utf-8").fst,
         t ++ (SandboxFilesystem.write_file env f.path
            (.pyStr (fi.content ++ content)) "utf-8").snd))
    ∧ (∀ m t, SandboxFilesystem.read_file env f.path "utf-8" =
        (.error (.fileNotFound m), t) →
      SandboxFileIo.write env f content =
        ((SandboxFilesystem.write_file env f.path (.pyStr content)
            "utf-8").fst,
         t ++ (SandboxFilesystem.write_file env f.path (.pyStr content)
            "utf-8").snd))
    ∧ AsyncSandboxFileIo.write env ⟨f.path, f.mode, f.closed⟩ content =
      SandboxFileIo.write env f content := by
  refine ⟨?_, ?_, ?_⟩
  · intro fi t h
    cases hW : SandboxFilesystem.write_file env f.path
        (.pyStr (fi.content ++ content)) "utf-8" with
    | mk r t2 => simp [SandboxFileIo.write, ha, hc, h, hW]
  · intro m t h
    cases hW : SandboxFilesystem.write_file env f.path (.pyStr content)
        "utf-8" with
    | mk r t2 => simp [SandboxFileIo.write, ha, hc, h, hW]
  · rfl

/-- Witness for C6: an append handle on the missing path /missing under
the stub environment: the not-found pre-read is swallowed and the write
proceeds with the new content alone, tracing the read then the write. -/
theorem append_write_pre_read_witness :
    strContains "a" "a" = true
    ∧ SandboxFilesystem.read_file stubEnv "/missing" "utf-8" =
      (.error (.fileNotFound "File not found: /missing"),
       [.clientRead "/missing"])
    ∧ SandboxFileIo.write stubEnv
        { path := "/missing", mode := "a", closed := false } "x" =
      ((SandboxFilesystem.write_file stubEnv "/missing" (.pyStr "x")
          "utf-8").fst,
       [.clientRead "/missing"] ++ (SandboxFilesystem.write_file stubEnv
          "/missing" (.pyStr "x") "utf-8").snd) := by
  refine ⟨rfl, by decide, ?_⟩
  exact (append_write_pre_read stubEnv
      { path := "/missing", mode := "a", closed := false } "x" rfl rfl).2.1
    "File not found: /missing" [.clientRead "/missing"] (by decide)

/-- C7: a handle opened without a write-capable mode letter rejects
write with the ValueError usage failure and an empty remote trace; a
closed handle rejects both read and write with a ValueError usage
failure and an empty remote trace; in particular a handle opened in
read-only mode rejects write. -/
theorem handle_usage_errors (env : SandboxEnv) (f : SandboxFileIo)
    (content : String) :
    (strContains f.mode "w" = false → strContains f.mode "a" = false →
      SandboxFileIo.write env f content =
        (.error (.valueError "File not opened for writing"), []))
    ∧ (f.closed = true →
      isUsageResult (SandboxFileIo.read env f).fst = true
      ∧ (SandboxFileIo.read env f).snd = []
      ∧ isUsageResult (SandboxFileIo.write env f content).fst = true
      ∧ (SandboxFileIo.write env f content).snd = [])
    ∧ (∀ p, SandboxFileIo.write env (SandboxFilesystem.open_ p "r") content =
      (.error (.valueError "File not opened for writing"), [])) := by
  refine ⟨?_, ?_, ?_⟩
  · intro hw ha
    simp [SandboxFileIo.write, hw, ha]
  · intro hcl
    have hread : isUsageResult (SandboxFileIo.read env f).fst = true
        ∧ (SandboxFileIo.read env f).snd = [] := by
      cases hr : strContains f.mode "r" <;>
        simp [SandboxFileIo.read, hr, hcl, isUsageResult]
    have hwrite : isUsageResult (SandboxFileIo.write env f content).fst = true
        ∧ (SandboxFileIo.write env f content).snd = [] := by
      cases hw : strContains f.mode "w" <;>
        cases haa : strContains f.mode "a" <;>
          simp [SandboxFileIo.write, hw, haa, hcl, isUsageResult]
    exact ⟨hread.1, hread.2, hwrite.1, hwrite.2⟩
  · intro p
    have hw : strContains "r" "w" = false := by decide
    have ha : strContains "r" "a" = false := by decide
    simp [SandboxFileIo.write, SandboxFilesystem.open_, hw, ha]

/-- Witness for C7: write on a handle opened read-only, and read on a
closed handle, both rejected locally. -/
theorem handle_usage_errors_witness :
    SandboxFileIo.write stubEnv (SandboxFilesystem.open_ "/a.txt" "r") "x" =
      (.error (.valueError "File not opened for writing"), [])
    ∧ isUsageResult (SandboxFileIo.read stubEnv
        { path := "/a.txt", mode := "r", closed := true }).fst = true
    ∧ (SandboxFileIo.read stubEnv
        { path := "/a.txt", mode := "r", closed := true }).snd = [] := by
  refine ⟨?_, ?_, ?_⟩
  · exact (handle_usage_errors stubEnv
      { path := "/a.txt", mode := "r", closed := false } "x").2.2 "/a.txt"
  · exact ((handle_usage_errors stubEnv
      { path := "/a.txt", mode := "r", closed := true } "x").2.1 rfl).1
  · exact ((handle_usage_errors stubEnv
      { path := "/a.txt", mode := "r", closed := true } "x").2.1 rfl).2.1
